import Mathlib

/-!
Verification development for the Capturecard_Viewer pipelines.

Shallow embedding of the two real-time pipelines of the repository:
the YUY2→RGB pixel converter and frame buffer (src/video.rs) and the
audio passthrough engine (src/audio.rs).  Bytes are modelled as `Nat`,
Rust `i32` arithmetic as `Int` (the intermediate BT.601 products stay far
below 2^31, so no wraparound occurs in the source), and `f32` samples as
`ℚ` (the claims are about data flow and exact values at non-borderline
points, not rounding).  Rust's `>> 10` on `i32` is an arithmetic shift,
i.e. floor division by 1024.  External device results (locks, decoders,
stream construction) are passed in as explicit parameters.
-/

/-! ### Pixel converter (src/video.rs, `yuy2_to_rgb_naive`) -/

/-- Model of Rust `x.clamp(0, 255) as u8` on an `i32` value. -/
def clampByte (x : Int) : Nat := (min 255 (max 0 x)).toNat

/-- Model of Rust `x >> 10` on `i32`: arithmetic shift, floor division by 1024. -/
def shr10 (x : Int) : Int := Int.fdiv x 1024

/-- One loop iteration of `yuy2_to_rgb_naive`: the 6 output bytes written for
one 4-byte source chunk `(y0, u, y1, v)`. -/
def yuy2Chunk (y0 u y1 v : Nat) : List Nat :=
  let c0 : Int := (y0 : Int) - 16
  let c1 : Int := (y1 : Int) - 16
  let d : Int := (u : Int) - 128
  let e : Int := (v : Int) - 128
  [clampByte (shr10 (1192 * c0 + 1634 * e)),
   clampByte (shr10 (1192 * c0 - 401 * d - 833 * e)),
   clampByte (shr10 (1192 * c0 + 2066 * d)),
   clampByte (shr10 (1192 * c1 + 1634 * e)),
   clampByte (shr10 (1192 * c1 - 401 * d - 833 * e)),
   clampByte (shr10 (1192 * c1 + 2066 * d))]

/-- The `zip` of the source's `chunks_exact(4)` / `chunks_exact_mut(6)` loop:
process `n` four-byte source chunks, emitting 6 bytes each.  The last arm is
unreachable when `4 * n ≤ src.length` (the caller takes `n` at most
`src.length / 4`, matching `chunks_exact`). -/
def convertPairs : Nat → List Nat → List Nat
  | 0, _ => []
  | n + 1, y0 :: u :: y1 :: v :: rest => yuy2Chunk y0 u y1 v ++ convertPairs n rest
  | _ + 1, _ => []

/-- Model of `yuy2_to_rgb_naive` from src/video.rs: allocate `width*height*3`
zero bytes, then overwrite the zipped chunks; bytes past the processed region
keep their zero initialisation. -/
def yuy2_to_rgb_naive (width height : Nat) (src : List Nat) : List Nat :=
  let outLen := width * height * 3
  let numPairs := min (src.length / 4) (outLen / 6)
  convertPairs numPairs src ++ List.replicate (outLen - numPairs * 6) 0

/-- The claim's BT.601 reference for a single pixel: subtract 16 from the
luma and 128 from each chroma, apply the fixed-point coefficients, shift by
10, clamp to a byte. -/
def bt601RefPixel (y u v : Nat) : List Nat :=
  let c : Int := (y : Int) - 16
  let d : Int := (u : Int) - 128
  let e : Int := (v : Int) - 128
  [clampByte (shr10 (1192 * c + 1634 * e)),
   clampByte (shr10 (1192 * c - 401 * d - 833 * e)),
   clampByte (shr10 (1192 * c + 2066 * d))]

/-- A source buffer of `n` uniform `(y, 128, y, 128)` quadruples. -/
def uniformYuy2 (y : Nat) : Nat → List Nat
  | 0 => []
  | n + 1 => y :: 128 :: y :: 128 :: uniformYuy2 y n

/-- The single gray level every channel takes on a `(y, 128, y, 128)` chunk. -/
def grayLevel (y : Nat) : Nat := clampByte (shr10 (1192 * ((y : Int) - 16)))

/-! ### Frame callback and frame buffer (src/video.rs) -/

/-- A decoded frame: width, height and packed RGB bytes. -/
structure VideoFrame where
  width : Nat
  height : Nat
  data : List Nat
deriving DecidableEq, Repr

/-- Source pixel layouts the frame callback distinguishes: the match in
src/video.rs singles out `FrameFormat::YUYV` and sends every other layout to
the generic fallback decode. -/
inductive FrameFormat where
  | YUYV
  | otherFormat
deriving DecidableEq, Repr

/-- Model of the frame callback installed by `start_capture` (src/video.rs):
on a `YUYV` frame of even width whose raw buffer holds at least
`width*height*2` bytes, run the fast converter; on a `YUYV` frame of even
width with an undersized buffer, produce nothing; on every other
format/width, use the external generic decoder, whose result for this frame
is the `decoded` parameter.  The returned value is the frame pushed into the
frame buffer, if any. -/
def frame_callback (source_format : FrameFormat) (width height : Nat)
    (raw_data : List Nat) (decoded : Option (List Nat)) : Option VideoFrame :=
  if source_format = FrameFormat.YUYV ∧ width % 2 = 0 then
    if width * height * 2 ≤ raw_data.length then
      some { width := width, height := height, data := yuy2_to_rgb_naive width height raw_data }
    else
      none
  else
    decoded.map fun d => { width := width, height := height, data := d }

/-- Model of `FrameBuffer` (src/video.rs).  `Instant` values are abstracted
as rational timestamps supplied by the caller; the diagnostic fields are kept
so the state transition mirrors the source field for field. -/
structure FrameBuffer where
  front : Option VideoFrame
  back : Option VideoFrame
  dirty : Bool
  last_frame_instant : Option ℚ
  frame_intervals : List ℚ
  last_decode_ms : ℚ
  fast_count : Nat
  fallback_count : Nat

/-- Model of `FrameBuffer::new`. -/
def FrameBuffer.new : FrameBuffer :=
  { front := none, back := none, dirty := false, last_frame_instant := none,
    frame_intervals := [], last_decode_ms := 0, fast_count := 0, fallback_count := 0 }

/-- Model of `FrameBuffer::push_back`: store the frame in `back`, set the
dirty flag, record the decode time and path counter, and append the
inter-arrival interval (evicting the oldest once 120 are held).  `now` is the
abstracted `Instant::now()`. -/
def FrameBuffer.push_back (fb : FrameBuffer) (frame : VideoFrame) (decode_ms : ℚ)
    (fast : Bool) (now : ℚ) : FrameBuffer :=
  let fb1 := { fb with
    back := some frame
    dirty := true
    last_decode_ms := decode_ms
    fast_count := if fast then fb.fast_count + 1 else fb.fast_count
    fallback_count := if fast then fb.fallback_count else fb.fallback_count + 1
    last_frame_instant := some now }
  match fb.last_frame_instant with
  | some prev =>
      let dt := now - prev
      let kept := if fb.frame_intervals.length = 120 then fb.frame_intervals.tail
                  else fb.frame_intervals
      { fb1 with frame_intervals := kept ++ [dt] }
  | none => fb1

/-- Model of `FrameBuffer::take_front`: when dirty, swap `front` and `back`
and clear the flag; return a copy of `front` together with the new state. -/
def FrameBuffer.take_front (fb : FrameBuffer) : Option VideoFrame × FrameBuffer :=
  if fb.dirty then
    let fb1 := { fb with front := fb.back, back := fb.front, dirty := false }
    (fb1.front, fb1)
  else
    (fb.front, fb)

/-- Model of `FrameBuffer::clear_old_frames`: drop a stale `back` when the
buffer is not dirty. -/
def FrameBuffer.clear_old_frames (fb : FrameBuffer) : FrameBuffer :=
  if fb.back.isSome ∧ fb.dirty = false then { fb with back := none } else fb

/-! ### Audio passthrough (src/audio.rs) -/

/-- Model of the `AudioCapture` struct (src/audio.rs).  Stream handles are
`Option Unit` (present or absent); `f32` values are `ℚ`. -/
structure AudioCapture where
  input_stream : Option Unit
  output_stream : Option Unit
  is_active : Bool
  volume : ℚ
  buffer_capacity : Nat
  audio_passthrough_enabled : Bool
  raw_audio_consumer : Option Unit
  processed_audio_consumer : Option Unit
deriving DecidableEq, Repr

/-- Model of `AudioCapture::new`. -/
def AudioCapture.new : AudioCapture :=
  { input_stream := none, output_stream := none, is_active := false, volume := 1,
    buffer_capacity := 0, audio_passthrough_enabled := true,
    raw_audio_consumer := none, processed_audio_consumer := none }

/-- Model of `AudioCapture::stop_capture`.  The two Booleans are the results
of the `pause()` calls on the taken streams; the source discards them with
`let _ =`, so the state transition is the same whether pausing succeeds or
fails. -/
def AudioCapture.stop_capture (s : AudioCapture)
    ( _input_pause_ok _output_pause_ok : Bool) : AudioCapture :=
  { s with input_stream := none, output_stream := none,
           is_active := false, buffer_capacity := 0 }

/-- Model of `AudioCapture::set_volume`: store `(percent / 100).clamp(0, 2)`. -/
def AudioCapture.set_volume (s : AudioCapture) (volume_percent : ℚ) : AudioCapture :=
  { s with volume := min (max (volume_percent / 100) 0) 2 }

/-- Model of `AudioCapture::set_audio_passthrough_enabled`: write the shared
flag; nothing else is touched. -/
def AudioCapture.set_audio_passthrough_enabled (s : AudioCapture) (enabled : Bool) :
    AudioCapture :=
  { s with audio_passthrough_enabled := enabled }

/-- Ring channel capacity as computed in `start_passthrough_with_settings`:
`buffer_size = sample_rate * channels * 50 / 1000` and
`HeapRb::new(buffer_size * 2)`. -/
def buffer_size (sample_rate channels : Nat) : Nat :=
  sample_rate * channels * 50 / 1000

/-- Capacity handed to `HeapRb::new`. -/
def ring_capacity (sample_rate channels : Nat) : Nat :=
  buffer_size sample_rate channels * 2

/-- Model of the i16 input callback's sample conversion
`sample as f32 / i16::MAX as f32`. -/
def i16_to_f32_sample (s : Int) : ℚ := (s : ℚ) / 32767

/-- Model of Rust `x as i16` on an `f32` value: truncate toward zero and
saturate to the i16 range. -/
def rat_as_i16 (x : ℚ) : Int := max (-32768) (min 32767 (x.num.tdiv x.den))

/-- The output-callback loop in the `F32` branch: fill `n` output slots,
popping the consumer queue each time; a successful pop writes
`sample * volume`, an empty queue writes silence.  Returns the written
buffer and the remaining queue. -/
def fill_output_f32 (volume : ℚ) : Nat → List ℚ → List ℚ × List ℚ
  | 0, q => ([], q)
  | n + 1, [] =>
      let rest := fill_output_f32 volume n []
      (0 :: rest.1, rest.2)
  | n + 1, s :: q =>
      let rest := fill_output_f32 volume n q
      (s * volume :: rest.1, rest.2)

/-- The output-callback loop in the i16 branch: a successful pop writes
`(sample * volume * i16::MAX as f32) as i16`, an empty queue writes 0. -/
def fill_output_i16 (volume : ℚ) : Nat → List ℚ → List Int × List ℚ
  | 0, q => ([], q)
  | n + 1, [] =>
      let rest := fill_output_i16 volume n []
      (0 :: rest.1, rest.2)
  | n + 1, s :: q =>
      let rest := fill_output_i16 volume n q
      (rat_as_i16 (s * volume * 32767) :: rest.1, rest.2)

/-- Model of the `F32` output callback (src/audio.rs): read the volume
(`1.0` when the mutex read fails), then either drain the consumer into the
buffer or, when the consumer `try_lock` fails, fill the whole buffer with
silence. -/
def output_callback_f32 (vol_lock : Option ℚ) (cons_locked : Bool)
    (queue : List ℚ) (n : Nat) : List ℚ × List ℚ :=
  let volume := vol_lock.getD 1
  if cons_locked then fill_output_f32 volume n queue
  else (List.replicate n 0, queue)

/-- Model of the i16 output callback (src/audio.rs). -/
def output_callback_i16 (vol_lock : Option ℚ) (cons_locked : Bool)
    (queue : List ℚ) (n : Nat) : List Int × List ℚ :=
  let volume := vol_lock.getD 1
  if cons_locked then fill_output_i16 volume n queue
  else (List.replicate n 0, queue)

/-- The output callbacks as closures over the controller state: they capture
the volume mutex and the consumer handle, and nothing else of the state. -/
def AudioCapture.output_callback_f32_of (s : AudioCapture) (cons_locked : Bool)
    (queue : List ℚ) (n : Nat) : List ℚ × List ℚ :=
  output_callback_f32 (some s.volume) cons_locked queue n

/-- The i16 output callback as a closure over the controller state. -/
def AudioCapture.output_callback_i16_of (s : AudioCapture) (cons_locked : Bool)
    (queue : List ℚ) (n : Nat) : List Int × List ℚ :=
  output_callback_i16 (some s.volume) cons_locked queue n

/-- Native stream configuration reported by a device. -/
structure StreamConfig where
  sample_rate : Nat
  channels : Nat
  format_is_f32 : Bool
deriving DecidableEq, Repr

/-- Results of the external device operations performed during
`start_passthrough_with_settings`, in source order: device resolution,
default-config queries, stream construction, and the two `play()` calls. -/
structure StartEnv where
  input_device : Option Unit
  output_device : Option Unit
  input_config : Option StreamConfig
  output_config : Option StreamConfig
  build_input_ok : Bool
  build_output_ok : Bool
  play_input_ok : Bool
  play_output_ok : Bool
deriving DecidableEq, Repr

/-- Model of `AudioCapture::start_passthrough_with_settings`: first
`stop_capture`, then each fallible step returns early with a descriptive
error; only after both streams play does the state receive the stream
handles, `is_active := true` and the consumer handles.  Returns the final
state and the error, if any. -/
def AudioCapture.start_passthrough_with_settings (s : AudioCapture) (env : StartEnv)
    (pause_in pause_out : Bool) : AudioCapture × Option String :=
  let s := s.stop_capture pause_in pause_out
  match env.input_device with
  | none => (s, some "No input device")
  | some _ =>
    match env.output_device with
    | none => (s, some "No output device")
    | some _ =>
      match env.input_config with
      | none => (s, some "Failed to get input config")
      | some _ =>
        match env.output_config with
        | none => (s, some "Failed to get output config")
        | some _ =>
          if env.build_input_ok = false then (s, some "Failed to build input stream")
          else if env.build_output_ok = false then (s, some "Failed to build output stream")
          else if env.play_input_ok = false then (s, some "Failed to start input stream")
          else if env.play_output_ok = false then (s, some "Failed to start output stream")
          else
            ({ s with input_stream := some (), output_stream := some (),
                      is_active := true, raw_audio_consumer := some (),
                      processed_audio_consumer := some () }, none)



/-! ### Supporting lemmas for the pixel converter -/

/-- The converter's loop emits 6 bytes per processed chunk. -/
theorem convertPairs_length : ∀ (n : Nat) (src : List Nat), 4 * n ≤ src.length →
    (convertPairs n src).length = 6 * n
  | 0, _, _ => by simp [convertPairs]
  | n + 1, y0 :: u :: y1 :: v :: rest, h => by
      have hr : 4 * n ≤ rest.length := by
        simp only [List.length_cons] at h; omega
      have ih := convertPairs_length n rest hr
      simp only [convertPairs, List.length_append, yuy2Chunk, List.length_cons,
        List.length_nil, ih]
      omega
  | n + 1, [], h => by simp only [List.length_nil] at h; omega
  | n + 1, [_], h => by simp only [List.length_cons, List.length_nil] at h; omega
  | n + 1, [_, _], h => by simp only [List.length_cons, List.length_nil] at h; omega
  | n + 1, [_, _, _], h => by simp only [List.length_cons, List.length_nil] at h; omega

/-- Reading past four cons cells shifts `getD` indices by four. -/
theorem getD_add4 (a b c d : Nat) (l : List Nat) (k : Nat) :
    (a :: b :: c :: d :: l).getD (k + 4) 0 = l.getD k 0 := by
  have h : k + 4 = k + 1 + 1 + 1 + 1 := by omega
  rw [h, List.getD_cons_succ, List.getD_cons_succ, List.getD_cons_succ, List.getD_cons_succ]

/-- The `i`-th 6-byte window of the converter output is the chunk conversion
of the `i`-th 4-byte source window. -/
theorem convertPairs_chunk : ∀ (i n : Nat) (src : List Nat), i < n → 4 * n ≤ src.length →
    ((convertPairs n src).drop (6 * i)).take 6 =
      yuy2Chunk (src.getD (4 * i) 0) (src.getD (4 * i + 1) 0)
        (src.getD (4 * i + 2) 0) (src.getD (4 * i + 3) 0)
  | _, 0, _, hi, _ => absurd hi (Nat.not_lt_zero _)
  | _, _ + 1, [], _, hl => by simp only [List.length_nil] at hl; omega
  | _, _ + 1, [_], _, hl => by simp only [List.length_cons, List.length_nil] at hl; omega
  | _, _ + 1, [_, _], _, hl => by simp only [List.length_cons, List.length_nil] at hl; omega
  | _, _ + 1, [_, _, _], _, hl => by simp only [List.length_cons, List.length_nil] at hl; omega
  | 0, n + 1, y0 :: u :: y1 :: v :: rest, _, _ => by
      have hl6 : (yuy2Chunk y0 u y1 v).length = 6 := by simp [yuy2Chunk]
      simp only [convertPairs, Nat.mul_zero, List.drop_zero]
      rw [List.take_left' hl6]
      rfl
  | i + 1, n + 1, y0 :: u :: y1 :: v :: rest, hi, hl => by
      have hr : 4 * n ≤ rest.length := by
        simp only [List.length_cons] at hl; omega
      have ih := convertPairs_chunk i n rest (by omega) hr
      have hchunk : (yuy2Chunk y0 u y1 v).length = 6 := by simp [yuy2Chunk]
      have hdrop : 6 * (i + 1) = (yuy2Chunk y0 u y1 v).length + 6 * i := by
        rw [hchunk]; ring
      have e0 : 4 * (i + 1) = 4 * i + 4 := by ring
      have e1 : 4 * i + 4 + 1 = 4 * i + 1 + 4 := by ring
      have e2 : 4 * i + 4 + 2 = 4 * i + 2 + 4 := by ring
      have e3 : 4 * i + 4 + 3 = 4 * i + 3 + 4 := by ring
      simp only [convertPairs]
      rw [hdrop, List.drop_append, e0, e1, e2, e3, getD_add4, getD_add4, getD_add4, getD_add4]
      exact ih

/-- Under the precondition (even width, enough source bytes), the converter
output is exactly `width*height/2` processed chunks: the zero padding is
empty and the chunk count, the source length and the output length line up. -/
theorem yuy2_normal_form (width height : Nat) (src : List Nat) (hw : width % 2 = 0)
    (hlen : width * height * 2 ≤ src.length) :
    yuy2_to_rgb_naive width height src = convertPairs (width * height / 2) src ∧
    4 * (width * height / 2) ≤ src.length ∧
    6 * (width * height / 2) = width * height * 3 := by
  obtain ⟨j, hj⟩ : ∃ j, width = 2 * j := ⟨width / 2, by omega⟩
  obtain ⟨k, hk⟩ : ∃ k, width * height = 2 * k := ⟨j * height, by rw [hj]; ring⟩
  have hhalf : width * height / 2 = k := by omega
  have h3 : width * height * 3 = 6 * k := by rw [hk]; ring
  have h6 : width * height * 3 / 6 = k := by omega
  have h4 : k ≤ src.length / 4 := by omega
  have hmin : min (src.length / 4) (width * height * 3 / 6) = k := by
    rw [h6]; exact Nat.min_eq_right h4
  have hpad : width * height * 3 - k * 6 = 0 := by omega
  refine ⟨?_, by omega, by omega⟩
  simp only [yuy2_to_rgb_naive, hmin, hhalf, hpad, List.replicate_zero, List.append_nil]

/-- C1: for every even width, height, and source buffer of length at least
`width*height*2`, `yuy2_to_rgb_naive` returns a buffer of length exactly
`width*height*3` in which, for each consecutive 4 source bytes
`(y0, u, y1, v)`, the two emitted pixels equal the fixed-point BT.601
reference (subtract 16 from the luma and 128 from the chroma, apply the
1024-scaled coefficients, shift right by 10, clamp to [0, 255]). -/
theorem C1_yuy2_conversion (width height : Nat) (src : List Nat)
    (hw : width % 2 = 0) (hlen : width * height * 2 ≤ src.length) :
    (yuy2_to_rgb_naive width height src).length = width * height * 3 ∧
    ∀ i, i < width * height / 2 →
      ((yuy2_to_rgb_naive width height src).drop (6 * i)).take 6 =
        bt601RefPixel (src.getD (4 * i) 0) (src.getD (4 * i + 1) 0) (src.getD (4 * i + 3) 0) ++
          bt601RefPixel (src.getD (4 * i + 2) 0) (src.getD (4 * i + 1) 0) (src.getD (4 * i + 3) 0) := by
  obtain ⟨heq, hle, h6⟩ := yuy2_normal_form width height src hw hlen
  constructor
  · rw [heq, convertPairs_length _ _ hle, h6]
  · intro i hi
    rw [heq, convertPairs_chunk i _ src hi hle]
    rfl

/-- Witness for C1 at width 2, height 1, source `[10, 20, 30, 40]`. -/
theorem C1_yuy2_conversion_witness :
    2 % 2 = 0 ∧ 2 * 1 * 2 ≤ ([10, 20, 30, 40] : List Nat).length ∧
    ((yuy2_to_rgb_naive 2 1 [10, 20, 30, 40]).length = 2 * 1 * 3 ∧
      ∀ i, i < 2 * 1 / 2 →
        ((yuy2_to_rgb_naive 2 1 [10, 20, 30, 40]).drop (6 * i)).take 6 =
          bt601RefPixel (([10, 20, 30, 40] : List Nat).getD (4 * i) 0)
              (([10, 20, 30, 40] : List Nat).getD (4 * i + 1) 0)
              (([10, 20, 30, 40] : List Nat).getD (4 * i + 3) 0) ++
            bt601RefPixel (([10, 20, 30, 40] : List Nat).getD (4 * i + 2) 0)
              (([10, 20, 30, 40] : List Nat).getD (4 * i + 1) 0)
              (([10, 20, 30, 40] : List Nat).getD (4 * i + 3) 0)) :=
  ⟨by decide, by decide, C1_yuy2_conversion 2 1 [10, 20, 30, 40] (by decide) (by decide)⟩

/-! ### Supporting lemmas for the uniform-gray round trip -/

/-- Length of the uniform source buffer. -/
theorem uniformYuy2_length (y : Nat) : ∀ n, (uniformYuy2 y n).length = 4 * n
  | 0 => by simp [uniformYuy2]
  | n + 1 => by
      simp only [uniformYuy2, List.length_cons, uniformYuy2_length y n]
      omega

/-- On a `(y, 128, y, 128)` chunk the chroma differences vanish, so all six
emitted bytes are the same gray level. -/
theorem yuy2Chunk_gray (y : Nat) :
    yuy2Chunk y 128 y 128 = List.replicate 6 (grayLevel y) := by
  simp only [yuy2Chunk, grayLevel]
  norm_num
  rfl

/-- Converting a uniform buffer yields a constant gray buffer. -/
theorem convertPairs_uniform (y : Nat) : ∀ n,
    convertPairs n (uniformYuy2 y n) = List.replicate (6 * n) (grayLevel y)
  | 0 => by simp [convertPairs, uniformYuy2]
  | n + 1 => by
      have h : 6 * (n + 1) = 6 + 6 * n := by ring
      simp only [uniformYuy2, convertPairs, convertPairs_uniform y n, yuy2Chunk_gray,
        h, List.replicate_add]

/-- `getD` inside a replicate reads the replicated element. -/
theorem getD_replicate_lt (a d : Nat) : ∀ (n k : Nat), k < n →
    (List.replicate n a).getD k d = a
  | n + 1, 0, _ => by simp [List.replicate_succ]
  | n + 1, k + 1, h => by
      simp only [List.replicate_succ, List.getD_cons_succ]
      exact getD_replicate_lt a d n k (by omega)

/-- C8: for every luma byte `y`, converting a source buffer of uniform
`(y, 128, y, 128)` quadruples yields an output in which every pixel's three
channels agree with one another within ±2 (in fact they are equal). -/
theorem C8_uniform_gray (width height y : Nat) (hw : width % 2 = 0) ( _hy : y ≤ 255) :
    ∀ p, p < width * height →
      (((yuy2_to_rgb_naive width height (uniformYuy2 y (width * height / 2))).getD (3 * p) 0 : Int) -
          ((yuy2_to_rgb_naive width height (uniformYuy2 y (width * height / 2))).getD (3 * p + 1) 0 : Int)).natAbs ≤ 2 ∧
      (((yuy2_to_rgb_naive width height (uniformYuy2 y (width * height / 2))).getD (3 * p + 1) 0 : Int) -
          ((yuy2_to_rgb_naive width height (uniformYuy2 y (width * height / 2))).getD (3 * p + 2) 0 : Int)).natAbs ≤ 2 ∧
      (((yuy2_to_rgb_naive width height (uniformYuy2 y (width * height / 2))).getD (3 * p) 0 : Int) -
          ((yuy2_to_rgb_naive width height (uniformYuy2 y (width * height / 2))).getD (3 * p + 2) 0 : Int)).natAbs ≤ 2 := by
  obtain ⟨j, hj⟩ : ∃ j, width = 2 * j := ⟨width / 2, by omega⟩
  obtain ⟨k, hk⟩ : ∃ k, width * height = 2 * k := ⟨j * height, by rw [hj]; ring⟩
  have hlen : width * height * 2 ≤ (uniformYuy2 y (width * height / 2)).length := by
    rw [uniformYuy2_length]
    omega
  obtain ⟨heq, hle, h6⟩ := yuy2_normal_form width height _ hw hlen
  have hout : yuy2_to_rgb_naive width height (uniformYuy2 y (width * height / 2)) =
      List.replicate (6 * (width * height / 2)) (grayLevel y) := by
    rw [heq, convertPairs_uniform]
  intro p hp
  have h0 : 3 * p < 6 * (width * height / 2) := by omega
  have h1 : 3 * p + 1 < 6 * (width * height / 2) := by omega
  have h2 : 3 * p + 2 < 6 * (width * height / 2) := by omega
  rw [hout, getD_replicate_lt _ _ _ _ h0, getD_replicate_lt _ _ _ _ h1,
    getD_replicate_lt _ _ _ _ h2]
  simp

/-- Witness for C8 at width 2, height 1, luma 70. -/
theorem C8_uniform_gray_witness :
    2 % 2 = 0 ∧ 70 ≤ 255 ∧
    (∀ p, p < 2 * 1 →
      (((yuy2_to_rgb_naive 2 1 (uniformYuy2 70 (2 * 1 / 2))).getD (3 * p) 0 : Int) -
          ((yuy2_to_rgb_naive 2 1 (uniformYuy2 70 (2 * 1 / 2))).getD (3 * p + 1) 0 : Int)).natAbs ≤ 2 ∧
      (((yuy2_to_rgb_naive 2 1 (uniformYuy2 70 (2 * 1 / 2))).getD (3 * p + 1) 0 : Int) -
          ((yuy2_to_rgb_naive 2 1 (uniformYuy2 70 (2 * 1 / 2))).getD (3 * p + 2) 0 : Int)).natAbs ≤ 2 ∧
      (((yuy2_to_rgb_naive 2 1 (uniformYuy2 70 (2 * 1 / 2))).getD (3 * p) 0 : Int) -
          ((yuy2_to_rgb_naive 2 1 (uniformYuy2 70 (2 * 1 / 2))).getD (3 * p + 2) 0 : Int)).natAbs ≤ 2) :=
  ⟨by decide, by decide, C8_uniform_gray 2 1 70 (by decide) (by decide)⟩

/-- C2 counterexample: a YUYV frame of odd width 1 is not dropped — it falls
through to the generic fallback decode, and when that decode succeeds a
VideoFrame is pushed into the frame buffer. -/
theorem C2_odd_width_frame_pushed :
    frame_callback FrameFormat.YUYV 1 1 [0, 0] (some [9, 9, 9]) =
      some { width := 1, height := 1, data := [9, 9, 9] } := by decide

/-- C2 amended: an even-width YUYV frame whose raw buffer is shorter than
`width*height*2` is dropped (no frame pushed, regardless of the fallback
decoder); an odd-width YUYV frame instead goes to the generic fallback
decode and is dropped exactly when that decode fails.  In either case the
callback returns normally — no crash or error is propagated. -/
theorem C2_undersized_frame_dropped :
    (∀ (width height : Nat) (raw_data : List Nat) (decoded : Option (List Nat)),
        width % 2 = 0 → raw_data.length < width * height * 2 →
          frame_callback FrameFormat.YUYV width height raw_data decoded = none) ∧
    (∀ (width height : Nat) (raw_data : List Nat) (decoded : Option (List Nat)),
        width % 2 = 1 →
          frame_callback FrameFormat.YUYV width height raw_data decoded =
            decoded.map fun d => { width := width, height := height, data := d }) := by
  constructor
  · intro width height raw_data decoded hw hshort
    have hno : ¬ width * height * 2 ≤ raw_data.length := by omega
    simp [frame_callback, hw, hno]
  · intro width height raw_data decoded hw
    simp [frame_callback, hw]

/-- Witness for C2's amended statement: an undersized even-width frame is
dropped; an odd-width frame follows the fallback decoder. -/
theorem C2_undersized_frame_dropped_witness :
    (2 % 2 = 0 ∧ ([0] : List Nat).length < 2 * 1 * 2 ∧
      frame_callback FrameFormat.YUYV 2 1 [0] (some [1, 2, 3]) = none) ∧
    (1 % 2 = 1 ∧
      frame_callback FrameFormat.YUYV 1 2 [0] (some [1, 2, 3]) =
        (some [1, 2, 3]).map fun d => { width := 1, height := 2, data := d }) :=
  ⟨⟨by decide, by decide,
    C2_undersized_frame_dropped.1 2 1 [0] (some [1, 2, 3]) (by decide) (by decide)⟩,
   ⟨by decide,
    C2_undersized_frame_dropped.2 1 2 [0] (some [1, 2, 3]) (by decide)⟩⟩

/-- C3: `take_front` called twice with no intervening `push_back` returns the
same frame both times, and the second call performs no swap (the state is
unchanged); after `push_back` of a frame `f`, the next `take_front` returns
`f`. -/
theorem C3_take_front_stable (fb : FrameBuffer) (f : VideoFrame) (d : ℚ)
    (fast : Bool) (now : ℚ) :
    (fb.take_front.2.take_front).1 = fb.take_front.1 ∧
    (fb.take_front.2.take_front).2 = fb.take_front.2 ∧
    ((fb.push_back f d fast now).take_front).1 = some f := by
  cases hli : fb.last_frame_instant <;> cases hd : fb.dirty <;>
    simp [FrameBuffer.take_front, FrameBuffer.push_back, hli, hd]

/-! ### Supporting lemmas for the output callback -/

/-- Slot `i` of the F32 fill loop: the popped sample scaled by the volume
when the queue still has an `i`-th element, silence otherwise. -/
theorem fill_output_f32_getD (v : ℚ) : ∀ (n : Nat) (q : List ℚ) (i : Nat), i < n →
    (fill_output_f32 v n q).1.getD i 0 =
      if i < q.length then q.getD i 0 * v else 0
  | 0, _, _, h => absurd h (Nat.not_lt_zero _)
  | _ + 1, [], 0, _ => by simp [fill_output_f32]
  | _ + 1, s :: q, 0, _ => by simp [fill_output_f32]
  | n + 1, [], i + 1, h => by
      simp only [fill_output_f32, List.getD_cons_succ, List.length_nil]
      rw [fill_output_f32_getD v n [] i (by omega)]
      simp
  | n + 1, s :: q, i + 1, h => by
      simp only [fill_output_f32, List.getD_cons_succ, List.length_cons]
      rw [fill_output_f32_getD v n q i (by omega)]
      by_cases hq : i < q.length <;> simp [hq]

/-- Slot `i` of the i16 fill loop. -/
theorem fill_output_i16_getD (v : ℚ) : ∀ (n : Nat) (q : List ℚ) (i : Nat), i < n →
    (fill_output_i16 v n q).1.getD i 0 =
      if i < q.length then rat_as_i16 (q.getD i 0 * v * 32767) else 0
  | 0, _, _, h => absurd h (Nat.not_lt_zero _)
  | _ + 1, [], 0, _ => by simp [fill_output_i16]
  | _ + 1, s :: q, 0, _ => by simp [fill_output_i16]
  | n + 1, [], i + 1, h => by
      simp only [fill_output_i16, List.getD_cons_succ, List.length_nil]
      rw [fill_output_i16_getD v n [] i (by omega)]
      simp
  | n + 1, s :: q, i + 1, h => by
      simp only [fill_output_i16, List.getD_cons_succ, List.length_cons]
      rw [fill_output_i16_getD v n q i (by omega)]
      by_cases hq : i < q.length <;> simp [hq]

/-- C4: in every output-callback invocation, each slot receives the popped
sample times the volume when the pop succeeds and silence (zero) when the
channel is empty; when the consumer lock cannot be acquired the whole buffer
is silence; in the integer-format case the scaled sample is converted back to
native i16 by saturating truncation. -/
theorem C4_output_callback (vol_lock : Option ℚ) (queue : List ℚ) (n : Nat) :
    (output_callback_f32 vol_lock false queue n).1 = List.replicate n 0 ∧
    (output_callback_i16 vol_lock false queue n).1 = List.replicate n 0 ∧
    (∀ i, i < n → (output_callback_f32 vol_lock true queue n).1.getD i 0 =
      if i < queue.length then queue.getD i 0 * vol_lock.getD 1 else 0) ∧
    (∀ i, i < n → (output_callback_i16 vol_lock true queue n).1.getD i 0 =
      if i < queue.length then rat_as_i16 (queue.getD i 0 * vol_lock.getD 1 * 32767) else 0) := by
  refine ⟨by simp [output_callback_f32], by simp [output_callback_i16], ?_, ?_⟩
  · intro i hi
    simpa [output_callback_f32] using fill_output_f32_getD (vol_lock.getD 1) n queue i hi
  · intro i hi
    simpa [output_callback_i16] using fill_output_i16_getD (vol_lock.getD 1) n queue i hi

/-- Witness for C4 with volume 2, queue `[3]`, a 2-slot buffer. -/
theorem C4_output_callback_witness :
    (0 : Nat) < 2 ∧ (1 : Nat) < 2 ∧
    ((output_callback_f32 (some 2) true [3] 2).1.getD 0 0 =
      if 0 < ([3] : List ℚ).length then ([3] : List ℚ).getD 0 0 * (some (2 : ℚ)).getD 1 else 0) ∧
    ((output_callback_f32 (some 2) true [3] 2).1.getD 1 0 =
      if 1 < ([3] : List ℚ).length then ([3] : List ℚ).getD 1 0 * (some (2 : ℚ)).getD 1 else 0) ∧
    ((output_callback_i16 (some 2) true [3] 2).1.getD 0 0 =
      if 0 < ([3] : List ℚ).length then
        rat_as_i16 (([3] : List ℚ).getD 0 0 * (some (2 : ℚ)).getD 1 * 32767) else 0) :=
  ⟨by decide, by decide,
   (C4_output_callback (some 2) [3] 2).2.2.1 0 (by decide),
   (C4_output_callback (some 2) [3] 2).2.2.1 1 (by decide),
   (C4_output_callback (some 2) [3] 2).2.2.2 0 (by decide)⟩

/-- C5: the ring channel capacity is `sample_rate * channels * 50 / 1000`
doubled; at 48000 Hz and 2 channels it is exactly 9600 samples. -/
theorem C5_ring_capacity (sample_rate channels : Nat) :
    ring_capacity sample_rate channels = sample_rate * channels * 50 / 1000 * 2 ∧
    ring_capacity 48000 2 = 9600 :=
  ⟨rfl, by norm_num [ring_capacity, buffer_size]⟩

/-- C6: `set_volume` stores the clamped multiplier `clamp(percent/100, 0, 2)`
for every input and never rejects a call; `set_volume(-50)` stores 0,
`set_volume(300)` stores 2, and `set_volume(100)` stores exactly 1. -/
theorem C6_set_volume (s : AudioCapture) (p : ℚ) :
    (s.set_volume p).volume = min (max (p / 100) 0) 2 ∧
    0 ≤ (s.set_volume p).volume ∧ (s.set_volume p).volume ≤ 2 ∧
    (s.set_volume (-50)).volume = 0 ∧
    (s.set_volume 300).volume = 2 ∧
    (s.set_volume 100).volume = 1 := by
  refine ⟨rfl, ?_, ?_, ?_, ?_, ?_⟩
  · exact le_min (le_max_right _ _) (by norm_num)
  · exact min_le_right _ _
  · show min (max ((-50 : ℚ) / 100) 0) 2 = 0
    norm_num [max_def, min_def]
  · show min (max ((300 : ℚ) / 100) 0) 2 = 2
    norm_num [max_def, min_def]
  · show min (max ((100 : ℚ) / 100) 0) 2 = 1
    norm_num [max_def, min_def]

/-- C7 evidence (code bug): the i16 input conversion divides by `i16::MAX`
(32767), so `i16::MIN` (-32768) maps strictly below -1.0, violating the
specified normalized range [-1.0, 1.0]; the two extremes that divide evenly
map exactly to ±1. -/
theorem C7_i16_min_exceeds_range :
    i16_to_f32_sample (-32768) < -1 ∧
    i16_to_f32_sample 32767 = 1 ∧
    i16_to_f32_sample (-32767) = -1 := by
  norm_num [i16_to_f32_sample]

/-- C9: `stop_capture` is idempotent and always resets `is_active` and
`buffer_capacity`, whatever the two `pause()` results were; and whenever
`start_passthrough_with_settings` returns an error, the controller is left
inactive with no streams installed. -/
theorem C9_stop_reset_and_start_failure :
    (∀ (s : AudioCapture) (p1 p2 p3 p4 : Bool),
        (s.stop_capture p1 p2).stop_capture p3 p4 = s.stop_capture p1 p2) ∧
    (∀ (s : AudioCapture) (p1 p2 : Bool),
        (s.stop_capture p1 p2).is_active = false ∧
        (s.stop_capture p1 p2).buffer_capacity = 0) ∧
    (∀ (s : AudioCapture) (env : StartEnv) (p1 p2 : Bool) (msg : String),
        (s.start_passthrough_with_settings env p1 p2).2 = some msg →
          (s.start_passthrough_with_settings env p1 p2).1.is_active = false ∧
          (s.start_passthrough_with_settings env p1 p2).1.input_stream = none ∧
          (s.start_passthrough_with_settings env p1 p2).1.output_stream = none) := by
  refine ⟨fun s p1 p2 p3 p4 => rfl, fun s p1 p2 => ⟨rfl, rfl⟩, ?_⟩
  intro s env p1 p2 msg h
  rcases env with ⟨id, od, ic, oc, bi, bo, pli, plo⟩
  cases id <;> cases od <;> cases ic <;> cases oc <;>
    cases bi <;> cases bo <;> cases pli <;> cases plo <;>
    simp_all [AudioCapture.start_passthrough_with_settings, AudioCapture.stop_capture]

/-- Witness for C9: starting with no input device available fails and leaves
the fresh controller inactive with no streams. -/
theorem C9_stop_reset_and_start_failure_witness :
    ((AudioCapture.new.start_passthrough_with_settings
        ⟨none, none, none, none, true, true, true, true⟩ true true).2 = some "No input device") ∧
    ((AudioCapture.new.start_passthrough_with_settings
        ⟨none, none, none, none, true, true, true, true⟩ true true).1.is_active = false ∧
     (AudioCapture.new.start_passthrough_with_settings
        ⟨none, none, none, none, true, true, true, true⟩ true true).1.input_stream = none ∧
     (AudioCapture.new.start_passthrough_with_settings
        ⟨none, none, none, none, true, true, true, true⟩ true true).1.output_stream = none) :=
  ⟨rfl, C9_stop_reset_and_start_failure.2.2 AudioCapture.new
      ⟨none, none, none, none, true, true, true, true⟩ true true "No input device" rfl⟩

/-- C10: `set_audio_passthrough_enabled` writes only the shared enabled flag,
and neither output callback reads that flag, so the samples written to the
output device are identical whether passthrough is enabled or disabled. -/
theorem C10_passthrough_flag_unread (s : AudioCapture) (b b' : Bool)
    (cons_locked : Bool) (queue : List ℚ) (n : Nat) :
    (s.set_audio_passthrough_enabled b).audio_passthrough_enabled = b ∧
    (s.set_audio_passthrough_enabled b).volume = s.volume ∧
    (s.set_audio_passthrough_enabled b).input_stream = s.input_stream ∧
    (s.set_audio_passthrough_enabled b).output_stream = s.output_stream ∧
    (s.set_audio_passthrough_enabled b).is_active = s.is_active ∧
    (s.set_audio_passthrough_enabled b).buffer_capacity = s.buffer_capacity ∧
    (s.set_audio_passthrough_enabled b).raw_audio_consumer = s.raw_audio_consumer ∧
    (s.set_audio_passthrough_enabled b).processed_audio_consumer = s.processed_audio_consumer ∧
    (s.set_audio_passthrough_enabled b).output_callback_f32_of cons_locked queue n =
      (s.set_audio_passthrough_enabled b').output_callback_f32_of cons_locked queue n ∧
    (s.set_audio_passthrough_enabled b).output_callback_i16_of cons_locked queue n =
      (s.set_audio_passthrough_enabled b').output_callback_i16_of cons_locked queue n ∧
    (s.set_audio_passthrough_enabled b).output_callback_f32_of cons_locked queue n =
      s.output_callback_f32_of cons_locked queue n :=
  ⟨rfl, rfl, rfl, rfl, rfl, rfl, rfl, rfl, rfl, rfl, rfl⟩
